import Mathlib

/-!
Shallow embedding of `src/app.py` (a Streamlit house-price prediction app)
and proofs about its behaviour.

Modelling conventions:
* Python floats are modelled as `Rat` (every value the program manipulates is
  a plain finite number; no float rounding is relevant to the claims).
* A pandas one-row DataFrame is modelled as an association list from column
  name to the (one-element) list of column values.
* A fitted sklearn pipeline is opaque: it is modelled as an arbitrary
  function from an input record to `Except String (List Rat)`, where
  `Except.error e` models `model.predict` raising an exception with message
  `e`, and `Except.ok ps` models it returning the array `ps`.
* The filesystem contents seen by `load_models` are an `ArtifactEnv`: each
  artifact load (`joblib.load` / `open(...).read()`) either succeeds with a
  value or raises with a message.
* `st.error` / messages shown to the user are collected in `List String`
  outputs.
* Python `int(x)` on a float truncates toward zero and raises `TypeError`
  on `None`; this is modelled by `pyIntOpt`.
* Python `str.strip()` is modelled by `pyStrip` (drop leading and trailing
  whitespace; `String.trim` is avoided because its well-founded recursion
  does not reduce in the kernel).
* `@st.cache_resource` memoises `load_models` per process: modelled by
  `cachedLoadModels` over an explicit `CacheState`.
-/

namespace HousePrice

/-- A value stored in one cell of the one-row input DataFrame: the form
fields are Python ints, one float (`Distance`) and strings. -/
inductive Val where
  | intV (n : Int)
  | ratV (q : Rat)
  | strV (s : String)
deriving DecidableEq

/-- Numeric cells are the int- and float-valued ones; string cells are the
categorical ones. -/
def Val.isNumeric : Val → Bool
  | .intV _ => true
  | .ratV _ => true
  | .strV _ => false

/-- The thirteen values read from the form widgets
(`src/app.py` lines 87-126): nine numeric widgets (seven int sliders /
number inputs, the float `distance` slider, the int `property_count`
slider) and four selectboxes. -/
structure FormInput where
  rooms : Int
  bedrooms : Int
  bathrooms : Int
  car_spaces : Int
  land_size : Int
  building_area : Int
  year_built : Int
  distance : Rat
  property_type : String
  region : String
  council : String
  method : String
  property_count : Int
deriving DecidableEq

/-- Options of the `property_type` selectbox (`src/app.py` line 99). -/
def type_options : List String := ["house", "unit", "townhouse"]

/-- Options of the region selectbox (`src/app.py` lines 103-105). -/
def region_options : List String :=
  ["Northern Metropolitan", "Southern Metropolitan", "Western Metropolitan",
   "Eastern Metropolitan", "South-Eastern Metropolitan", "Eastern Victoria",
   "Northern Victoria", "Western Victoria"]

/-- Options of the council selectbox (`src/app.py` lines 109-115). -/
def council_options : List String :=
  ["Banyule", "Bayside", "Boroondara", "Brimbank", "Cardinia",
   "Casey", "Darebin", "Frankston", "Glen Eira", "Greater Dandenong",
   "Hobsons Bay", "Hume", "Kingston", "Knox", "Macedon Ranges",
   "Manningham", "Maribyrnong", "Maroondah", "Melbourne", "Melton",
   "Monash", "Moonee Valley", "Moreland", "Mornington Peninsula",
   "Nillumbik", "Port Phillip", "Stonnington", "Whitehorse", "Whittlesea",
   "Yarra", "Yarra Ranges"]

/-- Options of the sale-method selectbox (`src/app.py` line 119). -/
def method_options : List String := ["S", "SP", "PI", "VB", "SA"]

/-- The one-row input DataFrame built on form submission
(`src/app.py` lines 134-148): column name to one-element value list, in
source order. -/
def mkInputData (f : FormInput) : List (String × List Val) :=
  [ ("Rooms", [Val.intV f.rooms]),
    ("Distance", [Val.ratV f.distance]),
    ("Bedroom2", [Val.intV f.bedrooms]),
    ("Bathroom", [Val.intV f.bathrooms]),
    ("Car", [Val.intV f.car_spaces]),
    ("Landsize", [Val.intV f.land_size]),
    ("BuildingArea", [Val.intV f.building_area]),
    ("YearBuilt", [Val.intV f.year_built]),
    ("Propertycount", [Val.intV f.property_count]),
    ("Type", [Val.strV f.property_type]),
    ("Method", [Val.strV f.method]),
    ("Regionname", [Val.strV f.region]),
    ("CouncilArea", [Val.strV f.council]) ]

/-- An opaque fitted pipeline: `model.predict(input_data)` either raises
(`Except.error`) or returns an array of numbers (`Except.ok`). -/
def Model : Type := List (String × List Val) → Except String (List Rat)

/-- The `feature_info.joblib` record: the column-name sets recorded at
training time (`src/app.py` lines 70-71 read these two keys). -/
structure FeatureInfo where
  numerical_cols_used : List String
  categorical_cols_used : List String

/-- An entry of the dict returned by `load_models`
(`src/app.py` lines 31-37). -/
inductive Entry where
  | model (m : Model)
  | name (s : String)
  | preproc
  | info (fi : FeatureInfo)

/-- The filesystem as `load_models` sees it: each of the five artifact reads
(`src/app.py` lines 23-29) either yields a value or raises with a message. -/
structure ArtifactEnv where
  linear_regression : Except String Model
  polynomial_regression : Except String Model
  preprocessor : Except String Unit
  feature_info : Except String FeatureInfo
  best_model_file : Except String String

/-- Python `str.strip()` on the character list: drop leading and trailing
whitespace. -/
def stripChars (l : List Char) : List Char :=
  ((l.dropWhile Char.isWhitespace).reverse.dropWhile Char.isWhitespace).reverse

/-- Python `str.strip()` (`src/app.py` line 29): remove leading and
trailing whitespace from the file content. -/
def pyStrip (s : String) : String :=
  String.mk (stripChars s.data)

/-- load_models (`src/app.py` lines 21-40): load the five artifacts in
source order inside one try/except; on the first exception show
`Error saat memuat model: ...` and return `None`; otherwise return the
five-entry dict, with the best-model name stripped of surrounding
whitespace. Result: (returned value, messages displayed). -/
def load_models (env : ArtifactEnv) :
    Option (List (String × Entry)) × List String :=
  match env.linear_regression with
  | Except.error e => (none, ["Error saat memuat model: " ++ e])
  | Except.ok linear_model =>
    match env.polynomial_regression with
    | Except.error e => (none, ["Error saat memuat model: " ++ e])
    | Except.ok poly_model =>
      match env.preprocessor with
      | Except.error e => (none, ["Error saat memuat model: " ++ e])
      | Except.ok _ =>
        match env.feature_info with
        | Except.error e => (none, ["Error saat memuat model: " ++ e])
        | Except.ok fi =>
          match env.best_model_file with
          | Except.error e => (none, ["Error saat memuat model: " ++ e])
          | Except.ok contents =>
            (some [("Linear Regression", Entry.model linear_model),
                   ("Polynomial Regression (degree=2)", Entry.model poly_model),
                   ("best_model_name", Entry.name (pyStrip contents)),
                   ("preprocessor", Entry.preproc),
                   ("feature_info", Entry.info fi)],
             [])

/-- predict_price (`src/app.py` lines 43-49): call `model.predict` inside a
try/except and return `prediction[0]`; any exception (including the
IndexError when the returned array is empty) is shown as
`Error saat membuat prediksi: ...` and `None` is returned.
Result: (returned value, messages displayed). -/
def predict_price (model : Model) (input_data : List (String × List Val)) :
    Option Rat × List String :=
  match model input_data with
  | Except.error e => (none, ["Error saat membuat prediksi: " ++ e])
  | Except.ok prediction =>
    match prediction with
    | [] =>
      (none,
       ["Error saat membuat prediksi: index 0 is out of bounds for axis 0 with size 0"])
    | p :: _ => (some p, [])

/-- The best-model selection (`src/app.py` line 158):
`best_pred = linear_pred if best_model == 'Linear Regression' else poly_pred`. -/
def choose_best (best_model : String) (linear_pred poly_pred : Option Rat) :
    Option Rat :=
  if best_model = "Linear Regression" then linear_pred else poly_pred

/-- Python `int(x)` applied to an optional number: `int(None)` raises
`TypeError`; on a number it truncates toward zero. -/
def pyIntOpt : Option Rat → Except String Int
  | none => Except.error "TypeError: int() argument is None"
  | some q => Except.ok (Int.tdiv q.num (q.den : Int))

/-- The result-display block (`src/app.py` lines 166-173): the three
`st.metric` calls apply `int()` to `linear_pred`, `poly_pred` and
`best_pred` in that order, with no `None` check before them. -/
def displayResults (linear_pred poly_pred best_pred : Option Rat) :
    Except String (Int × Int × Int) :=
  match pyIntOpt linear_pred with
  | Except.error e => Except.error e
  | Except.ok a =>
    match pyIntOpt poly_pred with
    | Except.error e => Except.error e
    | Except.ok b =>
      match pyIntOpt best_pred with
      | Except.error e => Except.error e
      | Except.ok c => Except.ok (a, b, c)

/-- Everything the submission branch of `main` produces
(`src/app.py` lines 132-196). -/
structure SubmitResult where
  input_data : List (String × List Val)
  linear_pred : Option Rat
  poly_pred : Option Rat
  best_model : String
  best_pred : Option Rat
  messages : List String
  display : Except String (Int × Int × Int)

/-- The `if submit_button:` branch of `main` (`src/app.py` lines 132-196):
build the one-row DataFrame, predict with both models, pick the best by the
stored name, then run the display block (which converts all three
predictions with `int()` unconditionally). -/
def runSubmit (linear_model poly_model : Model) (best_model : String)
    (f : FormInput) : SubmitResult :=
  let input_data := mkInputData f
  let lp := predict_price linear_model input_data
  let pp := predict_price poly_model input_data
  let best_pred := choose_best best_model lp.1 pp.1
  { input_data := input_data
    linear_pred := lp.1
    poly_pred := pp.1
    best_model := best_model
    best_pred := best_pred
    messages := lp.2 ++ pp.2
    display := displayResults lp.1 pp.1 best_pred }

/-- Dict access `models_data[k]` expecting a model; `none` models a
`KeyError` / wrong-entry access. -/
def getModelEntry (md : List (String × Entry)) (k : String) : Option Model :=
  match md.lookup k with
  | some (Entry.model m) => some m
  | _ => none

/-- Dict access `models_data[k]` expecting a string. -/
def getNameEntry (md : List (String × Entry)) (k : String) : Option String :=
  match md.lookup k with
  | some (Entry.name s) => some s
  | _ => none

/-- The submission branch run against the loaded dict
(`src/app.py` lines 153-158 read the two models and the best-model name
from `models_data`; a missing key would raise `KeyError` uncaught). -/
def runSubmitDict (md : List (String × Entry)) (f : FormInput) :
    Except String SubmitResult :=
  match getModelEntry md "Linear Regression",
        getModelEntry md "Polynomial Regression (degree=2)",
        getNameEntry md "best_model_name" with
  | some lm, some pm, some bm => Except.ok (runSubmit lm pm bm f)
  | _, _, _ => Except.error "KeyError"

/-- Outcome of one run of `main` (`src/app.py` lines 52-303): either the
early return after a failed load (line 65-67), or the rendered page with
the optional submission result. -/
inductive MainOutcome where
  | loadFailed (messages : List String)
  | rendered (result : Option (Except String SubmitResult))

/-- main (`src/app.py` lines 52-303), restricted to its observable
behaviour: load the models; if that returned `None`, show
`Gagal memuat model...` and return before building the form; otherwise
render the form and, if the user submitted it, run the prediction branch. -/
def main (env : ArtifactEnv) (submission : Option FormInput) : MainOutcome :=
  let r := load_models env
  match r.1 with
  | none =>
    MainOutcome.loadFailed
      (r.2 ++ ["Gagal memuat model. Silakan periksa file model dan path direktori."])
  | some md => MainOutcome.rendered (submission.map (fun f => runSubmitDict md f))

/-- State of the `@st.cache_resource` memoisation of `load_models`
(`src/app.py` line 20): the cached result, if any, and how many times the
body of `load_models` (the file reads) actually ran. -/
structure CacheState where
  cache : Option (Option (List (String × Entry)) × List String)
  loadCount : Nat

/-- One call of the `@st.cache_resource`-decorated `load_models`: on a
cache hit return the cached value unchanged; on a miss run the body once
and cache its result (also when the result is `None`). -/
def cachedLoadModels (env : ArtifactEnv) (s : CacheState) :
    (Option (List (String × Entry)) × List String) × CacheState :=
  match s.cache with
  | some r => (r, s)
  | none =>
    let r := load_models env
    (r, { cache := some r, loadCount := s.loadCount + 1 })

/-- The cache state after `n` interactions, each of which calls the
memoised `load_models` once (`src/app.py` line 64), starting from the fresh
process state. -/
def runInteractions (env : ArtifactEnv) : Nat → CacheState
  | 0 => { cache := none, loadCount := 0 }
  | n + 1 => (cachedLoadModels env (runInteractions env n)).2

/-- Guarantee the Streamlit widgets impose on the collected fields
(`src/app.py` lines 87-126): each slider / number input yields a value
within its `[min, max]` bounds and each selectbox yields one of its
options. -/
def widgetProduced (f : FormInput) : Prop :=
  (1 ≤ f.rooms ∧ f.rooms ≤ 10) ∧
  (1 ≤ f.bedrooms ∧ f.bedrooms ≤ 8) ∧
  (1 ≤ f.bathrooms ∧ f.bathrooms ≤ 5) ∧
  (0 ≤ f.car_spaces ∧ f.car_spaces ≤ 5) ∧
  (50 ≤ f.land_size ∧ f.land_size ≤ 2000) ∧
  (50 ≤ f.building_area ∧ f.building_area ≤ 1000) ∧
  (1900 ≤ f.year_built ∧ f.year_built ≤ 2023) ∧
  ((0 : Rat) ≤ f.distance ∧ f.distance ≤ 40) ∧
  (100 ≤ f.property_count ∧ f.property_count ≤ 10000) ∧
  f.property_type ∈ type_options ∧
  f.region ∈ region_options ∧
  f.council ∈ council_options ∧
  f.method ∈ method_options

/-- The range/membership constraints of claim C7, stated on a one-row
record (column lookups on the DataFrame that reaches `model.predict`). -/
def recordInRanges (d : List (String × List Val)) : Prop :=
  (∃ n : Int, d.lookup "Rooms" = some [Val.intV n] ∧ 1 ≤ n ∧ n ≤ 10) ∧
  (∃ n : Int, d.lookup "Bedroom2" = some [Val.intV n] ∧ 1 ≤ n ∧ n ≤ 8) ∧
  (∃ n : Int, d.lookup "Bathroom" = some [Val.intV n] ∧ 1 ≤ n ∧ n ≤ 5) ∧
  (∃ n : Int, d.lookup "Car" = some [Val.intV n] ∧ 0 ≤ n ∧ n ≤ 5) ∧
  (∃ n : Int, d.lookup "Landsize" = some [Val.intV n] ∧ 50 ≤ n ∧ n ≤ 2000) ∧
  (∃ n : Int, d.lookup "BuildingArea" = some [Val.intV n] ∧ 50 ≤ n ∧ n ≤ 1000) ∧
  (∃ n : Int, d.lookup "YearBuilt" = some [Val.intV n] ∧ 1900 ≤ n ∧ n ≤ 2023) ∧
  (∃ q : Rat, d.lookup "Distance" = some [Val.ratV q] ∧ 0 ≤ q ∧ q ≤ 40) ∧
  (∃ n : Int, d.lookup "Propertycount" = some [Val.intV n] ∧ 100 ≤ n ∧ n ≤ 10000) ∧
  (∃ s : String, d.lookup "Type" = some [Val.strV s] ∧ s ∈ type_options) ∧
  (∃ s : String, d.lookup "Method" = some [Val.strV s] ∧ s ∈ method_options) ∧
  (∃ s : String, d.lookup "Regionname" = some [Val.strV s] ∧ s ∈ region_options) ∧
  (∃ s : String, d.lookup "CouncilArea" = some [Val.strV s] ∧ s ∈ council_options)

/-- A column of the one-row record is numeric when all (here: its single)
values are numeric. -/
def colIsNumeric (c : String × List Val) : Bool :=
  c.2.all Val.isNumeric

/-- Number of numeric columns of the input record built from `f`. -/
def countNumeric (f : FormInput) : Nat :=
  ((mkInputData f).filter (fun c => colIsNumeric c)).length

/-- Number of categorical (non-numeric) columns of the input record built
from `f`. -/
def countCategorical (f : FormInput) : Nat :=
  ((mkInputData f).filter (fun c => ! colIsNumeric c)).length

/-- The widget default values (`src/app.py` lines 87-126: third slider
argument resp. `value=` / first option). -/
def defaultInput : FormInput :=
  { rooms := 3
    bedrooms := 2
    bathrooms := 1
    car_spaces := 1
    land_size := 500
    building_area := 150
    year_built := 1990
    distance := 10
    property_type := "house"
    region := "Northern Metropolitan"
    council := "Banyule"
    method := "S"
    property_count := 5000 }

/-- Raising detection on a modelled artifact load or `predict` call. -/
def isErr {α : Type} : Except String α → Bool
  | Except.error _ => true
  | Except.ok _ => false

/-- Success detection on a modelled computation. -/
def isOkB {α : Type} : Except String α → Bool
  | Except.error _ => false
  | Except.ok _ => true

/-- Some artifact load inside `load_models` raises. -/
def loadRaises (env : ArtifactEnv) : Prop :=
  isErr env.linear_regression = true ∨
  isErr env.polynomial_regression = true ∨
  isErr env.preprocessor = true ∨
  isErr env.feature_info = true ∨
  isErr env.best_model_file = true

/-- The dict has all five entries of `src/app.py` lines 31-37. -/
def hasAllFive (d : List (String × Entry)) : Prop :=
  (d.lookup "Linear Regression").isSome = true ∧
  (d.lookup "Polynomial Regression (degree=2)").isSome = true ∧
  (d.lookup "best_model_name").isSome = true ∧
  (d.lookup "preprocessor").isSome = true ∧
  (d.lookup "feature_info").isSome = true

/-- A concrete model that always predicts 700000. -/
def mA : Model := fun _ => Except.ok [700000]

/-- A concrete model that always predicts 800000. -/
def mB : Model := fun _ => Except.ok [800000]

/-- A concrete model whose `predict` always raises. -/
def mFail : Model := fun _ => Except.error "boom"

/-- Concrete metadata record used in witnesses. -/
def fi0 : FeatureInfo :=
  { numerical_cols_used :=
      ["Rooms", "Distance", "Bedroom2", "Bathroom", "Car", "Landsize",
       "BuildingArea", "YearBuilt", "Propertycount"]
    categorical_cols_used := ["Type", "Method", "Regionname", "CouncilArea"] }

/-- A concrete environment whose sidecar file names the linear model. -/
def envLin : ArtifactEnv :=
  { linear_regression := Except.ok mA
    polynomial_regression := Except.ok mB
    preprocessor := Except.ok ()
    feature_info := Except.ok fi0
    best_model_file := Except.ok "Linear Regression" }

/-- A concrete environment whose sidecar file names the polynomial model. -/
def envPoly : ArtifactEnv :=
  { linear_regression := Except.ok mA
    polynomial_regression := Except.ok mB
    preprocessor := Except.ok ()
    feature_info := Except.ok fi0
    best_model_file := Except.ok "Polynomial Regression (degree=2)" }

/-- A concrete environment where the first artifact load raises. -/
def envBad : ArtifactEnv :=
  { linear_regression := Except.error "FileNotFoundError"
    polynomial_regression := Except.ok mB
    preprocessor := Except.ok ()
    feature_info := Except.ok fi0
    best_model_file := Except.ok "Linear Regression" }

/-- The dict `load_models` returns on `envLin`. -/
def dLin : List (String × Entry) :=
  [("Linear Regression", Entry.model mA),
   ("Polynomial Regression (degree=2)", Entry.model mB),
   ("best_model_name", Entry.name (pyStrip "Linear Regression")),
   ("preprocessor", Entry.preproc),
   ("feature_info", Entry.info fi0)]

/-- The dict `load_models` returns on `envPoly`. -/
def dPoly : List (String × Entry) :=
  [("Linear Regression", Entry.model mA),
   ("Polynomial Regression (degree=2)", Entry.model mB),
   ("best_model_name", Entry.name (pyStrip "Polynomial Regression (degree=2)")),
   ("preprocessor", Entry.preproc),
   ("feature_info", Entry.info fi0)]

/-- The submission result on `envLin` with the default form values. -/
def rLin : SubmitResult :=
  runSubmit mA mB (pyStrip "Linear Regression") defaultInput

/-- The submission result on `envPoly` with the default form values. -/
def rPoly : SubmitResult :=
  runSubmit mA mB (pyStrip "Polynomial Regression (degree=2)") defaultInput

/-- Inversion of a successful `load_models`: all five artifact reads
succeeded and the returned dict has exactly the five entries of the
source, with the best-model name whitespace-stripped. -/
theorem load_models_ok_inv (env : ArtifactEnv) (d : List (String × Entry))
    (msgs : List String) (h : load_models env = (some d, msgs)) :
    ∃ (lm pm : Model) (fi : FeatureInfo) (s : String),
      env.linear_regression = Except.ok lm ∧
      env.polynomial_regression = Except.ok pm ∧
      env.feature_info = Except.ok fi ∧
      env.best_model_file = Except.ok s ∧
      d = [("Linear Regression", Entry.model lm),
           ("Polynomial Regression (degree=2)", Entry.model pm),
           ("best_model_name", Entry.name (pyStrip s)),
           ("preprocessor", Entry.preproc),
           ("feature_info", Entry.info fi)] ∧
      msgs = [] := by
  cases hlm : env.linear_regression with
  | error e => simp [load_models, hlm] at h
  | ok lm =>
    cases hpm : env.polynomial_regression with
    | error e => simp [load_models, hlm, hpm] at h
    | ok pm =>
      cases hpre : env.preprocessor with
      | error e => simp [load_models, hlm, hpm, hpre] at h
      | ok u =>
        cases hfi : env.feature_info with
        | error e => simp [load_models, hlm, hpm, hpre, hfi] at h
        | ok fi =>
          cases hbf : env.best_model_file with
          | error e => simp [load_models, hlm, hpm, hpre, hfi, hbf] at h
          | ok s =>
            simp only [load_models, hlm, hpm, hpre, hfi, hbf,
              Prod.mk.injEq, Option.some.injEq] at h
            exact ⟨lm, pm, fi, s, rfl, rfl, rfl, rfl, h.1.symm, h.2.symm⟩

/-- C1: for every form submission, the highlighted best-model prediction is
selected by a single string comparison of the label read from the sidecar
file (stored whitespace-stripped by `load_models`): it is the Linear
Regression prediction when that label equals "Linear Regression", and the
Polynomial Regression prediction otherwise. -/
theorem c1_best_model_single_string_comparison
    (env : ArtifactEnv) (d : List (String × Entry)) (msgs : List String)
    (s : String) (f : FormInput) (r : SubmitResult)
    (hload : load_models env = (some d, msgs))
    (hfile : env.best_model_file = Except.ok s)
    (hrun : runSubmitDict d f = Except.ok r) :
    r.best_model = pyStrip s ∧
    (r.best_model = "Linear Regression" → r.best_pred = r.linear_pred) ∧
    (r.best_model ≠ "Linear Regression" → r.best_pred = r.poly_pred) := by
  obtain ⟨lm, pm, fi, s', h1, h2, h3, h4, hd, hm⟩ :=
    load_models_ok_inv env d msgs hload
  rw [hfile] at h4
  injection h4 with h4
  subst h4
  subst hd
  have hrun' :
      Except.ok (runSubmit lm pm (pyStrip s) f) = Except.ok r := hrun
  injection hrun' with hrun'
  subst hrun'
  refine ⟨rfl, ?_, ?_⟩
  · intro h
    have h' : pyStrip s = "Linear Regression" := h
    simp [runSubmit, choose_best, h']
  · intro h
    have h' : ¬(pyStrip s = "Linear Regression") := h
    simp [runSubmit, choose_best, h']

/-- Witness for C1 at `envLin` and the default form input. -/
theorem c1_witness :
    rLin.best_model = pyStrip "Linear Regression" ∧
    (rLin.best_model = "Linear Regression" → rLin.best_pred = rLin.linear_pred) ∧
    (rLin.best_model ≠ "Linear Regression" → rLin.best_pred = rLin.poly_pred) :=
  c1_best_model_single_string_comparison envLin dLin [] "Linear Regression"
    defaultInput rLin rfl rfl rfl

/-- C10: whenever the sidecar file content, whitespace-stripped, is not the
exact string "Linear Regression" (e.g. "Polynomial Regression (degree=2)",
or any unrecognised label), the highlighted prediction is the Polynomial
Regression one; and the selection has no error branch — it always yields
one of the two predictions. -/
theorem c10_non_linear_label_selects_poly :
    (∀ (env : ArtifactEnv) (d : List (String × Entry)) (msgs : List String)
       (s : String) (f : FormInput) (r : SubmitResult),
       load_models env = (some d, msgs) →
       env.best_model_file = Except.ok s →
       pyStrip s ≠ "Linear Regression" →
       runSubmitDict d f = Except.ok r →
       r.best_pred = r.poly_pred) ∧
    (∀ (bm : String) (lp pp : Option Rat),
       choose_best bm lp pp = lp ∨ choose_best bm lp pp = pp) := by
  constructor
  · intro env d msgs s f r hload hfile hne hrun
    obtain ⟨lm, pm, fi, s', h1, h2, h3, h4, hd, hm⟩ :=
      load_models_ok_inv env d msgs hload
    rw [hfile] at h4
    injection h4 with h4
    subst h4
    subst hd
    have hrun' :
        Except.ok (runSubmit lm pm (pyStrip s) f) = Except.ok r := hrun
    injection hrun' with hrun'
    subst hrun'
    simp [runSubmit, choose_best, hne]
  · intro bm lp pp
    unfold choose_best
    split
    · exact Or.inl rfl
    · exact Or.inr rfl

/-- Witness for C10 at `envPoly` and the default form input. -/
theorem c10_witness : rPoly.best_pred = rPoly.poly_pred :=
  c10_non_linear_label_selects_poly.1 envPoly dPoly []
    "Polynomial Regression (degree=2)" defaultInput rPoly rfl rfl
    (by decide) rfl

/-- C3: whenever an artifact load inside `load_models` or the `predict`
call inside `predict_price` raises, the exception is caught at that call
site, a user-facing error message is displayed, and the function returns
`None` instead of propagating the exception. -/
theorem c3_exceptions_caught_at_call_site :
    (∀ env : ArtifactEnv, loadRaises env →
      (load_models env).1 = none ∧
      ∃ e, (load_models env).2 = ["Error saat memuat model: " ++ e]) ∧
    (∀ (m : Model) (d : List (String × List Val)) (e : String),
      m d = Except.error e →
      predict_price m d = (none, ["Error saat membuat prediksi: " ++ e])) := by
  constructor
  · intro env h
    cases h1 : env.linear_regression with
    | error e => exact ⟨by simp [load_models, h1], e, by simp [load_models, h1]⟩
    | ok lm =>
      cases h2 : env.polynomial_regression with
      | error e =>
        exact ⟨by simp [load_models, h1, h2], e, by simp [load_models, h1, h2]⟩
      | ok pm =>
        cases h3 : env.preprocessor with
        | error e =>
          exact ⟨by simp [load_models, h1, h2, h3], e,
                 by simp [load_models, h1, h2, h3]⟩
        | ok u =>
          cases h4 : env.feature_info with
          | error e =>
            exact ⟨by simp [load_models, h1, h2, h3, h4], e,
                   by simp [load_models, h1, h2, h3, h4]⟩
          | ok fi =>
            cases h5 : env.best_model_file with
            | error e =>
              exact ⟨by simp [load_models, h1, h2, h3, h4, h5], e,
                     by simp [load_models, h1, h2, h3, h4, h5]⟩
            | ok s =>
              exact absurd h (by simp [loadRaises, h1, h2, h3, h4, h5, isErr])
  · intro m d e h
    simp [predict_price, h]

/-- Witness for C3: a failing first artifact load and a raising `predict`. -/
theorem c3_witness :
    ((load_models envBad).1 = none ∧
      ∃ e, (load_models envBad).2 = ["Error saat memuat model: " ++ e]) ∧
    predict_price mFail (mkInputData defaultInput) =
      (none, ["Error saat membuat prediksi: " ++ "boom"]) :=
  ⟨c3_exceptions_caught_at_call_site.1 envBad (Or.inl rfl),
   c3_exceptions_caught_at_call_site.2 mFail (mkInputData defaultInput)
     "boom" rfl⟩

/-- C4: whenever the model's `predict` call succeeds (returning the array
`p :: rest`), `predict_price` returns its first element `p` — a (finite,
since numbers are rationals here) numeric prediction — and shows no error. -/
theorem c4_predict_price_returns_first_element
    (m : Model) (d : List (String × List Val)) (p : Rat) (rest : List Rat)
    (h : m d = Except.ok (p :: rest)) :
    predict_price m d = (some p, []) := by
  simp [predict_price, h]

/-- Witness for C4 at the constant model `mA`. -/
theorem c4_witness :
    predict_price mA (mkInputData defaultInput) = (some 700000, []) :=
  c4_predict_price_returns_first_element mA (mkInputData defaultInput)
    700000 [] rfl

/-- C5: the result-display code runs unconditionally after the two
prediction calls and applies `int()` to both predictions (and to the
selected best one) with no `None` check, so it completes without raising
exactly when both predictions succeeded. -/
theorem c5_display_total_iff_both_predictions_succeed
    (lm pm : Model) (bm : String) (f : FormInput) :
    isOkB (runSubmit lm pm bm f).display = true ↔
      ((runSubmit lm pm bm f).linear_pred.isSome = true ∧
       (runSubmit lm pm bm f).poly_pred.isSome = true) := by
  have key : ∀ (lp pp : Option Rat),
      isOkB (displayResults lp pp (choose_best bm lp pp)) = true ↔
        (lp.isSome = true ∧ pp.isSome = true) := by
    intro lp pp
    cases lp with
    | none => simp [displayResults, pyIntOpt, isOkB]
    | some a =>
      cases pp with
      | none => simp [displayResults, pyIntOpt, isOkB]
      | some b =>
        simp only [choose_best]
        split <;> simp [displayResults, pyIntOpt, isOkB]
  exact key (predict_price lm (mkInputData f)).1 (predict_price pm (mkInputData f)).1

/-- Witness for C5: with both constant models the display succeeds. -/
theorem c5_witness :
    isOkB (runSubmit mA mB "Linear Regression" defaultInput).display = true :=
  (c5_display_total_iff_both_predictions_succeed mA mB "Linear Regression"
    defaultInput).mpr ⟨rfl, rfl⟩

/-- C6: the form fields are collected into a one-row tabular record with
the thirteen source columns in source order, every column holding exactly
one value, namely the corresponding form field. -/
theorem c6_one_row_record_from_form_fields (f : FormInput) :
    (mkInputData f).map Prod.fst =
      ["Rooms", "Distance", "Bedroom2", "Bathroom", "Car", "Landsize",
       "BuildingArea", "YearBuilt", "Propertycount", "Type", "Method",
       "Regionname", "CouncilArea"] ∧
    (∀ c ∈ mkInputData f, c.2.length = 1) ∧
    (mkInputData f).lookup "Rooms" = some [Val.intV f.rooms] ∧
    (mkInputData f).lookup "Distance" = some [Val.ratV f.distance] ∧
    (mkInputData f).lookup "Bedroom2" = some [Val.intV f.bedrooms] ∧
    (mkInputData f).lookup "Bathroom" = some [Val.intV f.bathrooms] ∧
    (mkInputData f).lookup "Car" = some [Val.intV f.car_spaces] ∧
    (mkInputData f).lookup "Landsize" = some [Val.intV f.land_size] ∧
    (mkInputData f).lookup "BuildingArea" = some [Val.intV f.building_area] ∧
    (mkInputData f).lookup "YearBuilt" = some [Val.intV f.year_built] ∧
    (mkInputData f).lookup "Propertycount" = some [Val.intV f.property_count] ∧
    (mkInputData f).lookup "Type" = some [Val.strV f.property_type] ∧
    (mkInputData f).lookup "Method" = some [Val.strV f.method] ∧
    (mkInputData f).lookup "Regionname" = some [Val.strV f.region] ∧
    (mkInputData f).lookup "CouncilArea" = some [Val.strV f.council] := by
  refine ⟨rfl, ?_, rfl, rfl, rfl, rfl, rfl, rfl, rfl, rfl, rfl, rfl, rfl,
    rfl, rfl⟩
  intro c hc
  simp only [mkInputData, List.mem_cons, List.not_mem_nil, or_false] at hc
  rcases hc with rfl | rfl | rfl | rfl | rfl | rfl | rfl | rfl | rfl | rfl |
    rfl | rfl | rfl <;> rfl

/-- Witness for C6: the Rooms column of the default submission is present
and holds exactly one value. -/
theorem c6_witness :
    ("Rooms", [Val.intV (3 : Int)]) ∈ mkInputData defaultInput ∧
    (("Rooms", [Val.intV (3 : Int)]) : String × List Val).2.length = 1 :=
  ⟨by decide,
   (c6_one_row_record_from_form_fields defaultInput).2.1
     ("Rooms", [Val.intV (3 : Int)]) (by decide)⟩

/-- C7: every record that reaches the two prediction calls — i.e. the
`input_data` built by the submission branch from widget-produced form
values — satisfies the widget-imposed range and membership constraints. -/
theorem c7_record_satisfies_widget_constraints
    (lm pm : Model) (bm : String) (f : FormInput)
    (h : widgetProduced f) :
    recordInRanges (runSubmit lm pm bm f).input_data := by
  obtain ⟨h1, h2, h3, h4, h5, h6, h7, h8, h9, h10, h11, h12, h13⟩ := h
  exact ⟨⟨f.rooms, rfl, h1⟩, ⟨f.bedrooms, rfl, h2⟩, ⟨f.bathrooms, rfl, h3⟩,
    ⟨f.car_spaces, rfl, h4⟩, ⟨f.land_size, rfl, h5⟩,
    ⟨f.building_area, rfl, h6⟩, ⟨f.year_built, rfl, h7⟩,
    ⟨f.distance, rfl, h8⟩, ⟨f.property_count, rfl, h9⟩,
    ⟨f.property_type, rfl, h10⟩, ⟨f.method, rfl, h13⟩,
    ⟨f.region, rfl, h11⟩, ⟨f.council, rfl, h12⟩⟩

/-- Witness for C7 at the widget defaults. -/
theorem c7_witness :
    recordInRanges (runSubmit mA mB "Linear Regression" defaultInput).input_data :=
  c7_record_satisfies_widget_constraints mA mB "Linear Regression"
    defaultInput (by unfold widgetProduced; decide)

/-- C2 counterexample: the input record has thirteen named fields, but not
seven numeric and six categorical ones — it has nine numeric and four
categorical fields. -/
theorem c2_counterexample :
    (mkInputData defaultInput).length = 13 ∧
    countNumeric defaultInput = 9 ∧
    countCategorical defaultInput = 4 ∧
    ¬(countNumeric defaultInput = 7 ∧ countCategorical defaultInput = 6) := by
  decide

/-- C2 (amended): the prediction-input record constructed per form
submission is a fixed-width record of thirteen named fields, of which nine
are numeric and four are categorical. -/
theorem c2_amended_thirteen_fields_nine_numeric_four_categorical
    (f : FormInput) :
    (mkInputData f).length = 13 ∧
    countNumeric f = 9 ∧
    countCategorical f = 4 :=
  ⟨rfl, rfl, rfl⟩

/-- After at least one interaction, the memoised cache holds the one load
result and the body has run exactly once. -/
theorem runInteractions_pos (env : ArtifactEnv) :
    ∀ n : Nat, 1 ≤ n →
      runInteractions env n =
        { cache := some (load_models env), loadCount := 1 } := by
  intro n hn
  induction n with
  | zero => exact absurd hn (by omega)
  | succ k ih =>
    rcases Nat.eq_zero_or_pos k with h0 | hpos
    · subst h0
      rfl
    · show (cachedLoadModels env (runInteractions env k)).2 = _
      rw [ih hpos]
      rfl

/-- C8: the artifacts are loaded at most once per process lifetime — after
any number of interactions the `load_models` body (the five file reads) has
run at most once — and every interaction after the first returns the
cached result instead of re-reading the files. -/
theorem c8_artifacts_loaded_at_most_once (env : ArtifactEnv) (n : Nat) :
    (runInteractions env n).loadCount ≤ 1 ∧
    (1 ≤ n →
      (cachedLoadModels env (runInteractions env n)).1 = load_models env ∧
      (runInteractions env n).cache = some (load_models env)) := by
  rcases Nat.eq_zero_or_pos n with h0 | hpos
  · subst h0
    exact ⟨by simp [runInteractions], fun h => absurd h (by omega)⟩
  · rw [runInteractions_pos env n hpos]
    exact ⟨le_refl 1, fun _ => ⟨rfl, rfl⟩⟩

/-- Witness for C8 after two interactions on `envLin`. -/
theorem c8_witness :
    (runInteractions envLin 2).loadCount ≤ 1 ∧
    (cachedLoadModels envLin (runInteractions envLin 2)).1 =
      load_models envLin :=
  ⟨(c8_artifacts_loaded_at_most_once envLin 2).1,
   ((c8_artifacts_loaded_at_most_once envLin 2).2 (by omega)).1⟩

/-- C9: artifact loading is all-or-nothing — `load_models` returns either a
dict containing all five entries or `None` — and when it returns `None`,
`main` shows the failure message and returns before building the form or
making any prediction (the `loadFailed` outcome). -/
theorem c9_load_all_or_nothing_and_early_return (env : ArtifactEnv) :
    ((load_models env).1 = none ∨
      ∃ d, (load_models env).1 = some d ∧ hasAllFive d) ∧
    (∀ sub : Option FormInput, (load_models env).1 = none →
      main env sub = MainOutcome.loadFailed
        ((load_models env).2 ++
          ["Gagal memuat model. Silakan periksa file model dan path direktori."])) := by
  constructor
  · cases hfst : (load_models env).1 with
    | none => exact Or.inl rfl
    | some d =>
      refine Or.inr ⟨d, rfl, ?_⟩
      have hpair : load_models env = (some d, (load_models env).2) := by
        rw [← hfst]
      obtain ⟨lm, pm, fi, s, h1, h2, h3, h4, hd, hm⟩ :=
        load_models_ok_inv env d (load_models env).2 hpair
      subst hd
      exact ⟨rfl, rfl, rfl, rfl, rfl⟩
  · intro sub h
    rcases hlm : load_models env with ⟨o, m⟩
    rw [hlm] at h
    cases o with
    | some md => simp at h
    | none => simp [main, hlm]

/-- Witness for C9 at the failing environment `envBad`. -/
theorem c9_witness :
    main envBad (some defaultInput) = MainOutcome.loadFailed
      ((load_models envBad).2 ++
        ["Gagal memuat model. Silakan periksa file model dan path direktori."]) :=
  (c9_load_all_or_nothing_and_early_return envBad).2 (some defaultInput) rfl

end HousePrice
